import Mathlib

/-!
Verification of the micro-server HTTP lifecycle library.

This file shallowly embeds the lifecycle-relevant Go code of the repository:

* `pkg/server/server.go` — the `httpServer` controller (`Run`, `Shutdown`,
  `NewBaseServer`, `parseListener`);
* the advanced-server helpers (`NewServer`, `NewListener`, `ConfigureHandler`,
  `RunServer`, `CORSOptions`);
* the options defaults (`Options`, `setOptionsDefaults`,
  `defaultGracefulTimeout`);
* `pkg/helpers/context/context.go` — `WithCancelOnSignal`, modelled as a small
  transition system over the states of its channel, watcher goroutine and
  once-guarded release function.

External collaborators (gorilla mux/handlers, winio, net) are abstracted at
their call boundary: each external fallible call is parameterised by its
outcome, and the embedding records exactly which calls the Go code performs
and in which order.
-/

namespace MicroServer

/-- Go errors, as compared by the code. `http.ErrServerClosed` is the one
sentinel value the code compares against by identity; every other error is
carried opaquely with its message. -/
inductive GoError where
  | errServerClosed
  | errMsg (s : String)
deriving DecidableEq, Repr

/-- Error returned by `Run` when `s.listener == nil`
(server.go line 167: `fmt.Errorf("listener not initialised")`). -/
def listenerNotInitialised : GoError := GoError.errMsg "listener not initialised"

/-- Error returned by `Run` when `s.runningServer != nil`
(server.go line 171: `fmt.Errorf("server already running")`). -/
def serverAlreadyRunning : GoError := GoError.errMsg "server already running"

/-! ## Options and defaults (`Options`, `setOptionsDefaults`) -/

/-- `time.Duration` is Go's `int64` nanosecond count; modelled as `Int`
(no arithmetic overflows occur in the embedded code). -/
abbrev Duration := Int

/-- `defaultGracefulTimeout = time.Second * 5` (5e9 nanoseconds). -/
def defaultGracefulTimeout : Duration := 5 * 1000000000

/-- The server configuration options (`Options` struct). -/
structure Options where
  enableProfiling : Bool
  enableTracing : Bool
  gracefulTimeout : Duration
  enableReplication : Bool
deriving DecidableEq, Repr

/-- `setOptionsDefaults(options *Options)`: mutates the options in place.
The Go function takes a pointer and does nothing on `nil`; `NewBaseServer`
always passes a non-nil pointer, which is the case embedded here.
The body guards on `options.GracefulTimeout == 0` only. -/
def setOptionsDefaults (options : Options) : Options :=
  if options.gracefulTimeout = 0 then
    { options with gracefulTimeout := defaultGracefulTimeout }
  else
    options

/-! ## Listener factory (`parseListener`, `NewListener`) -/

/-- The single synchronous listen attempt `parseListener` makes: either a
`winio.ListenPipe(endpoint, nil)` call or a `net.Listen("tcp", endpoint)`
call, each carrying the exact string handed to the external library. -/
inductive ListenAttempt where
  | namedPipe (path : String)
  | tcp (addr : String)
deriving DecidableEq, Repr

/-- Go's `strings.HasPrefix`, embedded on the character sequence of the
string (Go strings and Lean strings agree on prefix tests for the
endpoints involved). -/
def hasPrefix (s p : String) : Bool := p.data.isPrefixOf s.data

/-- `parseListener(endpoint)`: if the endpoint starts with two backslash
characters (`strings.HasPrefix(endpoint, "\\\\")` in Go source notation,
a two-character prefix at runtime), attempt a Windows named pipe on the
full endpoint string; otherwise attempt a TCP listener on it.  The
decision is purely the two-character prefix test; nothing else about the
string is inspected, and exactly one attempt is made (no retries). -/
def parseListener (endpoint : String) : ListenAttempt :=
  if hasPrefix endpoint "\\\\" then
    ListenAttempt.namedPipe endpoint
  else
    ListenAttempt.tcp endpoint

/-- `NewListener(endpoint)` just forwards to `parseListener`. -/
def NewListener (endpoint : String) : ListenAttempt := parseListener endpoint

/-! ## Handler composition (`ConfigureHandler`) -/

/-- The middleware-wrapped handler values that appear in the code: an opaque
base handler, a `handlers.CORS(CORSOptions...)` wrapper, or a
`handlers.HTTPMethodOverrideHandler` wrapper. -/
inductive Handler where
  | base (name : String)
  | cors (inner : Handler)
  | methodOverride (inner : Handler)
deriving DecidableEq, Repr

/-- `ConfigureHandler(handler)`:
`handler = handlers.CORS(CORSOptions...)(handler)` then
`handler = handlers.HTTPMethodOverrideHandler(handler)`.
The second wrap is applied around the result of the first, so the
method-override wrapper ends up outermost. -/
def ConfigureHandler (handler : Handler) : Handler :=
  let handler := Handler.cors handler
  let handler := Handler.methodOverride handler
  handler

/-- The layers of a composed handler from the outside in: the head of the
list is the layer an incoming request reaches (is inspected by) first. -/
def inspectionOrder : Handler → List String
  | Handler.base _ => ["base"]
  | Handler.cors inner => "cors" :: inspectionOrder inner
  | Handler.methodOverride inner => "methodOverride" :: inspectionOrder inner

/-- In the order of layers of `h`, the CORS layer sees the request strictly
before the method-override layer does. -/
def corsInspectsFirst (h : Handler) : Prop :=
  (inspectionOrder h).indexOf "cors" < (inspectionOrder h).indexOf "methodOverride"

instance (h : Handler) : Decidable (corsInspectsFirst h) := by
  unfold corsInspectsFirst; infer_instance

/-! ## `RunServer` (advanced server): error reclassification -/

/-- `RunServer`'s treatment of the value returned by `httpServer.Serve`
(which in Go is always a non-nil error once the loop terminates):
`http.ErrServerClosed` — the expected result of the shutdown goroutine
closing the server — is reclassified to `nil`; anything else is returned
unchanged.  The shutdown goroutine itself (`<-ctx.Done()` then
`Shutdown`/`Close` bounded by `gracefulTimeout`) is concurrent machinery
that does not affect this return-value mapping. -/
def RunServer (serveResult : GoError) : Option GoError :=
  if serveResult = GoError.errServerClosed then none else some serveResult

/-! ## The `httpServer` controller state -/

/-- A registered mux route, as far as `Run`'s startup walk inspects it:
`GetPathTemplate` either yields a template or errors (routes registered
without a path), and `GetMethods` likewise.  Handles to the underlying
gorilla objects are opaque. -/
structure Route where
  pathTemplate : Option String
  methods : Option (List String)
deriving DecidableEq, Repr

/-- The mutable fields of the `httpServer` struct that the lifecycle methods
read and write.  `listener` and `runningServer` hold opaque handles to the
external `net.Listener` and `*http.Server` resources (`none` is Go `nil`);
`router` is the registry of routes the startup walk enumerates. -/
structure ServerState where
  listener : Option Nat
  runningServer : Option Nat
  router : List Route
deriving DecidableEq, Repr

/-- The outcomes of the three external close operations `Shutdown` may call,
one `Option GoError` each (`none` = the call succeeds):
`s.runningServer.Shutdown(ctx)`, `s.runningServer.Close()`,
`s.listener.Close()`. -/
structure CloseBehaviour where
  srvShutdownErr : Option GoError
  srvCloseErr : Option GoError
  listenerCloseErr : Option GoError
deriving DecidableEq, Repr

/-- The external close calls `Shutdown` can perform, in the order it
attempts them. -/
inductive CloseAction where
  | srvShutdown
  | srvClose
  | listenerClose
deriving DecidableEq, Repr

/-- Result of a `Shutdown` call: the returned error, the controller state it
leaves behind, and the trace of external close calls it attempted. -/
structure ShutdownOutcome where
  err : Option GoError
  state : ServerState
  attempts : List CloseAction
deriving DecidableEq, Repr

/-- `httpServer.Shutdown` (server.go lines 238-271), line by line:
if `runningServer != nil`, call its graceful `Shutdown`; on error, log and
`return err` (nothing further is attempted).  Then call its `Close`; on
error, log and `return err`.  On success nil out both `listener` and
`runningServer` (the server shutdown closed the listener).  Afterwards, if
`listener != nil` (only reachable when no server was running), close it;
on error return it, on success nil the field.  Return `nil`. -/
def Shutdown (s : ServerState) (env : CloseBehaviour) : ShutdownOutcome :=
  match s.runningServer with
  | some _ =>
    match env.srvShutdownErr with
    | some e => ⟨some e, s, [CloseAction.srvShutdown]⟩
    | none =>
      match env.srvCloseErr with
      | some e => ⟨some e, s, [CloseAction.srvShutdown, CloseAction.srvClose]⟩
      | none =>
        ⟨none, { s with listener := none, runningServer := none },
          [CloseAction.srvShutdown, CloseAction.srvClose]⟩
  | none =>
    match s.listener with
    | some _ =>
      match env.listenerCloseErr with
      | some e => ⟨some e, s, [CloseAction.listenerClose]⟩
      | none => ⟨none, { s with listener := none }, [CloseAction.listenerClose]⟩
    | none => ⟨none, s, []⟩

/-- The error `mux.Route.GetPathTemplate` returns for a route registered
without a path. -/
def muxNoTemplateErr : GoError := GoError.errMsg "mux: route doesn't have a path"

/-- The walk callback in `Run` (server.go lines 196-227) applied by
`mux.Router.Walk` to each route in turn: a route whose `GetPathTemplate`
errors makes the callback return that error, which aborts the walk there
(later routes are not visited); otherwise one log line is emitted per route
and the walk continues.  Returns the walk's error result and the log lines
emitted. -/
def walkRoutes : List Route → Option GoError × List String
  | [] => (none, [])
  | r :: rest =>
    match r.pathTemplate with
    | none => (some muxNoTemplateErr, [])
    | some t =>
      let w := walkRoutes rest
      (w.1, t :: w.2)

/-- Result of a `Run` call: the returned error, the final controller state,
whether the serve loop (`advserver.RunServer`) was actually entered, and
the route log lines emitted at startup. -/
structure RunOutcome where
  err : Option GoError
  state : ServerState
  served : Bool
  logs : List String
deriving DecidableEq, Repr

/-- `httpServer.Run` (server.go lines 165-235), line by line:
return `listener not initialised` if `listener == nil`; return
`server already running` if `runningServer != nil` (both without touching
any state).  Otherwise store the new `*http.Server` handle, defer a
`Shutdown` whose error is discarded, walk the routes discarding the walk's
error (`_ = s.router.Walk(...)`), run the serve loop via
`advserver.RunServer`, and return its (possibly reclassified) result after
the deferred `Shutdown` has run.  `newSrv` is the handle produced by
`advserver.NewServer`, `serveResult` the error with which the serve loop
terminates, `env` the outcomes of the deferred shutdown's close calls. -/
def Run (s : ServerState) (newSrv : Nat) (serveResult : GoError)
    (env : CloseBehaviour) : RunOutcome :=
  match s.listener with
  | none => ⟨some listenerNotInitialised, s, false, []⟩
  | some _ =>
    match s.runningServer with
    | some _ => ⟨some serverAlreadyRunning, s, false, []⟩
    | none =>
      let s1 : ServerState := { s with runningServer := some newSrv }
      let walk := walkRoutes s1.router
      let serveErr := RunServer serveResult
      let deferredShutdown := Shutdown s1 env
      ⟨serveErr, deferredShutdown.state, true, walk.2⟩

/-- `NewBaseServer(endpoint, options)` so far as the lifecycle state is
concerned: apply the option defaults, create the listener via
`NewListener`; on listener failure return the error, otherwise return a
controller holding the fresh listener, a fresh empty router and no running
server.  `listenerResult` is the outcome of the external listen attempt:
the bound listener handle or the bind error. -/
def NewBaseServer (options : Options) (listenerResult : Except GoError Nat) :
    Except GoError (Duration × ServerState) :=
  let options := setOptionsDefaults options
  match listenerResult with
  | Except.error e => Except.error e
  | Except.ok l => Except.ok (options.gracefulTimeout, ⟨some l, none, []⟩)

/-! ## Signal-driven cancellation (`WithCancelOnSignal`)

`WithCancelOnSignal` in `pkg/helpers/context/context.go` creates a child
cancellable context, a buffered signal channel `ch` registered with
`signal.Notify`, and a watcher goroutine `go func() { <-ch; cancel() }()`.
It returns the child context together with a release function
`func() { once.Do(func() { signal.Reset(signals...); close(ch) }); <-ctx.Done() }`.

Its concurrent behaviour is embedded as a transition system: a state records
the signal registration, the channel (closed flag, queued signal, and a
running count of `close` calls so double-close is expressible), the watcher
goroutine's progress, the child context's cancellation flag and the
`sync.Once` guard; events are the atomic steps the runtime, the watcher and
the release function can take, in any interleaving. -/

/-- State of one `WithCancelOnSignal` invocation. -/
structure SigState where
  /-- `signal.Notify(ch, signals...)` is in effect (undone by `signal.Reset`). -/
  notifyRegistered : Bool
  /-- `close(ch)` has happened. -/
  chClosed : Bool
  /-- How many times `close(ch)` has executed (Go panics on the second). -/
  chCloseCount : Nat
  /-- A delivered signal is buffered in `ch`, not yet received. -/
  signalQueued : Bool
  /-- The watcher goroutine has completed its single `<-ch` receive. -/
  watcherDone : Bool
  /-- The child context is cancelled (`ctx.Done()` is closed). -/
  cancelled : Bool
  /-- The `sync.Once` has fired. -/
  onceUsed : Bool
deriving DecidableEq, Repr

/-- State right after `WithCancelOnSignal` returns: notifications registered,
channel open and never closed, no signal pending, watcher blocked on `<-ch`,
child context live, `once` unused. -/
def sigInit : SigState :=
  ⟨true, false, 0, false, false, false, false⟩

/-- The atomic events of the system. -/
inductive SigEvent where
  /-- The runtime delivers a registered OS signal into the buffered channel
  (after `signal.Reset` nothing more is delivered). -/
  | deliverSignal
  /-- The watcher goroutine's `<-ch` completes — possible once a signal is
  queued or the channel is closed (a closed channel yields the zero value) —
  and it then calls `cancel()`. -/
  | watcherStep
  /-- The parent context is cancelled, which propagates to the child. -/
  | parentCancel
  /-- One call of the body the release function hands to `once.Do`:
  `signal.Reset(signals...); close(ch)` — executed only the first time. -/
  | releaseBody
deriving DecidableEq, Repr

/-- One atomic step. -/
def sigStep : SigEvent → SigState → SigState
  | SigEvent.deliverSignal, s =>
    if s.notifyRegistered then { s with signalQueued := true } else s
  | SigEvent.watcherStep, s =>
    if !s.watcherDone && (s.signalQueued || s.chClosed) then
      { s with watcherDone := true, cancelled := true, signalQueued := false }
    else s
  | SigEvent.parentCancel, s => { s with cancelled := true }
  | SigEvent.releaseBody, s =>
    if s.onceUsed then s
    else
      { s with notifyRegistered := false, chClosed := true,
               chCloseCount := s.chCloseCount + 1, onceUsed := true }

/-- Execute a sequence of events from the initial state (the head of the
list is the most recent event). -/
def sigExec : List SigEvent → SigState
  | [] => sigInit
  | e :: evs => sigStep e (sigExec evs)

/-- After performing the once-guarded body, a release call executes
`<-ctx.Done()`: it is blocked exactly while the child context is not yet
cancelled, and returns as soon as `cancelled` holds. -/
def releaseCallReturned (s : SigState) : Prop := s.cancelled = true

/-- The state invariant tying the once guard to the channel and the signal
registration, and the watcher to the cancellation flag. -/
def SigInv (s : SigState) : Prop :=
  s.chCloseCount = (if s.onceUsed then 1 else 0) ∧
  s.chClosed = s.onceUsed ∧
  s.notifyRegistered = !s.onceUsed ∧
  (s.watcherDone = true → s.cancelled = true)

/-! ## Theorems -/

/-- Claim C3 counterexample: in the handler composed by `ConfigureHandler`,
the CORS layer is not the outermost layer and does not inspect the request
before the method-override transform: the inspection order from the outside
in is method override, then CORS, then the base handler. -/
theorem configureHandler_cors_not_first :
    inspectionOrder (ConfigureHandler (Handler.base "app")) =
      ["methodOverride", "cors", "base"] ∧
    ¬ corsInspectsFirst (ConfigureHandler (Handler.base "app")) := by
  decide

/-- Claim C3 (amended): `ConfigureHandler` wraps the base handler with CORS
first and the HTTP-method-override transform second, so the method-override
layer is the outermost one: for every request it inspects the request
before the CORS layer does. -/
theorem configureHandler_override_outermost (handler : Handler) :
    ConfigureHandler handler = Handler.methodOverride (Handler.cors handler) ∧
    inspectionOrder (ConfigureHandler handler) =
      "methodOverride" :: "cors" :: inspectionOrder handler := by
  exact ⟨rfl, rfl⟩

/-- Claim C4 counterexample: an `Options` value with a negative
`GracefulTimeout` is not given the 5-second default — `setOptionsDefaults`
only replaces an exactly-zero value, and `NewBaseServer` keeps the
negative duration. -/
theorem negative_timeout_kept_cex :
    (setOptionsDefaults ⟨false, false, -1, false⟩).gracefulTimeout = -1 ∧
    (-1 : Duration) ≠ defaultGracefulTimeout ∧
    NewBaseServer ⟨false, false, -1, false⟩ (Except.ok 0) =
      Except.ok (-1, ⟨some 0, none, []⟩) := by
  refine ⟨rfl, by decide, rfl⟩

/-- Claim C4 (amended): constructing a server applies the 5-second default
graceful timeout exactly when the given `GracefulTimeout` is zero (unset);
every non-zero value — positive or negative — is kept unchanged. -/
theorem gracefulTimeout_default_iff_zero (options : Options) (l : Nat) :
    (options.gracefulTimeout = 0 →
      NewBaseServer options (Except.ok l) =
        Except.ok (defaultGracefulTimeout, ⟨some l, none, []⟩)) ∧
    (options.gracefulTimeout ≠ 0 →
      NewBaseServer options (Except.ok l) =
        Except.ok (options.gracefulTimeout, ⟨some l, none, []⟩)) := by
  constructor
  · intro h
    simp [NewBaseServer, setOptionsDefaults, h]
  · intro h
    simp [NewBaseServer, setOptionsDefaults, h]

/-- Witness for `gracefulTimeout_default_iff_zero` at a zero and at a
positive timeout. -/
theorem gracefulTimeout_default_iff_zero_witness :
    NewBaseServer ⟨false, false, 0, false⟩ (Except.ok 0) =
      Except.ok (defaultGracefulTimeout, ⟨some 0, none, []⟩) ∧
    NewBaseServer ⟨false, false, 7, false⟩ (Except.ok 0) =
      Except.ok (7, ⟨some 0, none, []⟩) :=
  ⟨(gracefulTimeout_default_iff_zero ⟨false, false, 0, false⟩ 0).1 rfl,
   (gracefulTimeout_default_iff_zero ⟨false, false, 7, false⟩ 0).2 (by decide)⟩

/-- Claim C7: `RunServer` reclassifies the server-closed termination of the
serve loop — the expected result of the requested orderly shutdown — as
success (`nil`); a serve loop that terminates with any other error has
that error returned unchanged. -/
theorem runServer_reclassifies_server_closed (e : GoError) :
    RunServer GoError.errServerClosed = none ∧
    (e ≠ GoError.errServerClosed → RunServer e = some e) := by
  constructor
  · rfl
  · intro h
    simp [RunServer, h]

/-- Witness for `runServer_reclassifies_server_closed` at the server-closed
sentinel and at an ordinary serve failure. -/
theorem runServer_reclassifies_server_closed_witness :
    RunServer GoError.errServerClosed = none ∧
    RunServer (GoError.errMsg "accept failed") =
      some (GoError.errMsg "accept failed") :=
  ⟨(runServer_reclassifies_server_closed GoError.errServerClosed).1,
   (runServer_reclassifies_server_closed (GoError.errMsg "accept failed")).2
     (by decide)⟩

/-- Claim C9: `parseListener` dispatches purely on the two-character
backslash-backslash prefix: every endpoint starting with it gets a single
named-pipe listen attempt on the whole string (whatever the remainder
looks like), and every other endpoint gets a single TCP listen attempt on
the whole string. -/
theorem parseListener_prefix_dispatch (endpoint : String) :
    (hasPrefix endpoint "\\\\" = true →
      parseListener endpoint = ListenAttempt.namedPipe endpoint) ∧
    (hasPrefix endpoint "\\\\" = false →
      parseListener endpoint = ListenAttempt.tcp endpoint) := by
  constructor
  · intro h
    simp [parseListener, h]
  · intro h
    simp [parseListener, h]

/-- Witness for `parseListener_prefix_dispatch` at a pipe-prefixed endpoint
whose remainder is not a valid network address, and at a TCP endpoint. -/
theorem parseListener_prefix_dispatch_witness :
    parseListener "\\\\not a network address!" =
      ListenAttempt.namedPipe "\\\\not a network address!" ∧
    parseListener "127.0.0.1:8080" = ListenAttempt.tcp "127.0.0.1:8080" :=
  ⟨(parseListener_prefix_dispatch "\\\\not a network address!").1 rfl,
   (parseListener_prefix_dispatch "127.0.0.1:8080").2 rfl⟩

/-- Helper: `Run` on a nil listener returns the `listener not initialised`
error untouched: same state, no serve loop, no logs. -/
lemma run_listener_none (s : ServerState) (newSrv : Nat) (serveResult : GoError)
    (env : CloseBehaviour) (h : s.listener = none) :
    Run s newSrv serveResult env = ⟨some listenerNotInitialised, s, false, []⟩ := by
  unfold Run
  rw [h]

/-- Helper: a `Shutdown` call that returns `nil` always leaves the
`listener` field nil. -/
lemma shutdown_ok_listener_none (s : ServerState) (env : CloseBehaviour)
    (h : (Shutdown s env).err = none) :
    (Shutdown s env).state.listener = none := by
  cases hrs : s.runningServer with
  | some rs =>
    cases h1 : env.srvShutdownErr with
    | some e => simp [Shutdown, hrs, h1] at h
    | none =>
      cases h2 : env.srvCloseErr with
      | some e => simp [Shutdown, hrs, h1, h2] at h
      | none => simp [Shutdown, hrs, h1, h2]
  | none =>
    cases hl : s.listener with
    | some l =>
      cases h3 : env.listenerCloseErr with
      | some e => simp [Shutdown, hrs, hl, h3] at h
      | none => simp [Shutdown, hrs, hl, h3]
    | none => simp [Shutdown, hrs, hl]

/-- Claim C1 counterexample: with a running server and a still-held
listener, a failing graceful shutdown makes `Shutdown` return the error
after attempting only the server-shutdown call: the listener is still held
and its close is never attempted, so not every resource gets an attempted
close. -/
theorem shutdown_error_skips_listener_close_cex :
    Shutdown ⟨some 0, some 1, []⟩
        ⟨some (GoError.errMsg "shutdown failed"), none, none⟩ =
      ⟨some (GoError.errMsg "shutdown failed"), ⟨some 0, some 1, []⟩,
        [CloseAction.srvShutdown]⟩ ∧
    CloseAction.listenerClose ∉
      (Shutdown ⟨some 0, some 1, []⟩
        ⟨some (GoError.errMsg "shutdown failed"), none, none⟩).attempts ∧
    (Shutdown ⟨some 0, some 1, []⟩
        ⟨some (GoError.errMsg "shutdown failed"), none, none⟩).state.listener =
      some 0 := by
  decide

/-- Claim C1 (amended): when a server is running, an error from its graceful
shutdown makes `Shutdown` return immediately after that single attempt,
and an error from the subsequent close makes it return after those two
attempts; in both cases the listener close is never attempted and the
state is left unchanged — cleanup is aborted at the first failure, not
continued best-effort. -/
theorem shutdown_aborts_on_first_error (s : ServerState) (env : CloseBehaviour)
    (rs : Nat) (h : s.runningServer = some rs) :
    (∀ e, env.srvShutdownErr = some e →
      Shutdown s env = ⟨some e, s, [CloseAction.srvShutdown]⟩ ∧
      CloseAction.listenerClose ∉ (Shutdown s env).attempts) ∧
    (∀ e, env.srvShutdownErr = none → env.srvCloseErr = some e →
      Shutdown s env =
        ⟨some e, s, [CloseAction.srvShutdown, CloseAction.srvClose]⟩ ∧
      CloseAction.listenerClose ∉ (Shutdown s env).attempts) := by
  constructor
  · intro e h1
    have hs : Shutdown s env = ⟨some e, s, [CloseAction.srvShutdown]⟩ := by
      unfold Shutdown
      rw [h, h1]
    exact ⟨hs, by rw [hs]; simp⟩
  · intro e h1 h2
    have hs : Shutdown s env =
        ⟨some e, s, [CloseAction.srvShutdown, CloseAction.srvClose]⟩ := by
      unfold Shutdown
      rw [h, h1, h2]
    exact ⟨hs, by rw [hs]; simp⟩

/-- Witness for `shutdown_aborts_on_first_error` at a concrete running
state, once with a failing graceful shutdown and once with a failing
close. -/
theorem shutdown_aborts_on_first_error_witness :
    (Shutdown ⟨some 3, some 4, []⟩ ⟨some (GoError.errMsg "a"), none, none⟩ =
      ⟨some (GoError.errMsg "a"), ⟨some 3, some 4, []⟩,
        [CloseAction.srvShutdown]⟩ ∧
      CloseAction.listenerClose ∉
        (Shutdown ⟨some 3, some 4, []⟩
          ⟨some (GoError.errMsg "a"), none, none⟩).attempts) ∧
    (Shutdown ⟨some 3, some 4, []⟩ ⟨none, some (GoError.errMsg "b"), none⟩ =
      ⟨some (GoError.errMsg "b"), ⟨some 3, some 4, []⟩,
        [CloseAction.srvShutdown, CloseAction.srvClose]⟩ ∧
      CloseAction.listenerClose ∉
        (Shutdown ⟨some 3, some 4, []⟩
          ⟨none, some (GoError.errMsg "b"), none⟩).attempts) :=
  ⟨(shutdown_aborts_on_first_error ⟨some 3, some 4, []⟩
      ⟨some (GoError.errMsg "a"), none, none⟩ 4 rfl).1 (GoError.errMsg "a") rfl,
   (shutdown_aborts_on_first_error ⟨some 3, some 4, []⟩
      ⟨none, some (GoError.errMsg "b"), none⟩ 4 rfl).2 (GoError.errMsg "b")
      rfl rfl⟩

/-- Claim C2 counterexample: a controller whose router holds a single route
with no path template still serves — `Run` enters the serve loop and, when
the loop later ends by orderly shutdown, returns `nil`.  Startup is not
aborted and no error is reported. -/
theorem run_ignores_walk_error_cex :
    (Run ⟨some 0, none, [⟨none, none⟩]⟩ 1 GoError.errServerClosed
        ⟨none, none, none⟩).served = true ∧
    (Run ⟨some 0, none, [⟨none, none⟩]⟩ 1 GoError.errServerClosed
        ⟨none, none, none⟩).err = none ∧
    walkRoutes [⟨none, none⟩] = (some muxNoTemplateErr, []) := by
  decide

/-- Claim C2 (amended): a registered route missing a path template makes the
startup walk stop at that route with the mux error and emit no further log
lines, but `Run` discards the walk's error: it still enters the serve loop
and its return value is exactly the (reclassified) serve-loop result,
unaffected by the walk. -/
theorem run_discards_walk_error (s : ServerState) (l : Nat) (r : Route)
    (rest : List Route) (newSrv : Nat) (serveResult : GoError)
    (env : CloseBehaviour) (h1 : s.listener = some l)
    (h2 : s.runningServer = none) (h3 : s.router = r :: rest)
    (h4 : r.pathTemplate = none) :
    walkRoutes s.router = (some muxNoTemplateErr, []) ∧
    (Run s newSrv serveResult env).served = true ∧
    (Run s newSrv serveResult env).logs = [] ∧
    (Run s newSrv serveResult env).err = RunServer serveResult := by
  have hw : walkRoutes s.router = (some muxNoTemplateErr, []) := by
    rw [h3]
    unfold walkRoutes
    rw [h4]
  have hr : Run s newSrv serveResult env =
      ⟨RunServer serveResult,
        (Shutdown { s with runningServer := some newSrv } env).state, true,
        (walkRoutes s.router).2⟩ := by
    unfold Run
    rw [h1, h2]
  refine ⟨hw, ?_, ?_, ?_⟩ <;> simp [hr, hw]

/-- Witness for `run_discards_walk_error` at a concrete controller with one
template-less route. -/
theorem run_discards_walk_error_witness :
    walkRoutes ([⟨none, some ["GET"]⟩] : List Route) =
      (some muxNoTemplateErr, []) ∧
    (Run ⟨some 2, none, [⟨none, some ["GET"]⟩]⟩ 1 GoError.errServerClosed
      ⟨none, none, none⟩).served = true ∧
    (Run ⟨some 2, none, [⟨none, some ["GET"]⟩]⟩ 1 GoError.errServerClosed
      ⟨none, none, none⟩).logs = [] ∧
    (Run ⟨some 2, none, [⟨none, some ["GET"]⟩]⟩ 1 GoError.errServerClosed
      ⟨none, none, none⟩).err = RunServer GoError.errServerClosed :=
  run_discards_walk_error ⟨some 2, none, [⟨none, some ["GET"]⟩]⟩ 2
    ⟨none, some ["GET"]⟩ [] 1 GoError.errServerClosed ⟨none, none, none⟩
    rfl rfl rfl rfl

/-- Claim C5 counterexample: on a controller that has been constructed but
never `Run` — no running server, the constructed listener still held —
`Shutdown` does return `nil`, but it is not side-effect free: it attempts
the listener close and clears the listener field, an observable state
change. -/
theorem shutdown_before_run_closes_listener_cex :
    Shutdown ⟨some 7, none, []⟩ ⟨none, none, none⟩ =
      ⟨none, ⟨none, none, []⟩, [CloseAction.listenerClose]⟩ ∧
    (⟨none, none, []⟩ : ServerState) ≠ ⟨some 7, none, []⟩ ∧
    (Shutdown ⟨some 7, none, []⟩ ⟨none, none, none⟩).attempts ≠ [] := by
  decide

/-- Claim C5 (amended): `Shutdown` on a controller holding neither a running
server nor a listener — as after shutdown already completed — returns `nil`,
attempts no close and leaves the state unchanged (in particular it never
dereferences the nil resources); on a controller that was constructed but
never `Run`, it attempts exactly the listener close, returning `nil` and
clearing the listener field when that close succeeds. -/
theorem shutdown_idle_behaviour (env : CloseBehaviour) (rt : List Route)
    (l : Nat) :
    Shutdown ⟨none, none, rt⟩ env = ⟨none, ⟨none, none, rt⟩, []⟩ ∧
    (env.listenerCloseErr = none →
      Shutdown ⟨some l, none, rt⟩ env =
        ⟨none, ⟨none, none, rt⟩, [CloseAction.listenerClose]⟩) := by
  constructor
  · rfl
  · intro h
    simp [Shutdown, h]

/-- Witness for `shutdown_idle_behaviour` at a concrete already-stopped
state and a concrete never-run state. -/
theorem shutdown_idle_behaviour_witness :
    Shutdown ⟨none, none, []⟩ ⟨none, none, none⟩ =
      ⟨none, ⟨none, none, []⟩, []⟩ ∧
    Shutdown ⟨some 9, none, []⟩ ⟨none, none, none⟩ =
      ⟨none, ⟨none, none, []⟩, [CloseAction.listenerClose]⟩ :=
  ⟨(shutdown_idle_behaviour ⟨none, none, none⟩ [] 9).1,
   (shutdown_idle_behaviour ⟨none, none, none⟩ [] 9).2 rfl⟩

/-- Claim C6: `Run` reports its precondition violations in-band and without
side effects: with a nil listener it returns the `listener not initialised`
error, and with a server already running it returns the
`server already running` error — in both cases the state it returns is the
input state untouched, the serve loop is never entered and nothing is
logged. -/
theorem run_precondition_errors (s : ServerState) (newSrv : Nat)
    (serveResult : GoError) (env : CloseBehaviour) :
    (s.listener = none →
      Run s newSrv serveResult env =
        ⟨some listenerNotInitialised, s, false, []⟩) ∧
    (∀ l rs, s.listener = some l → s.runningServer = some rs →
      Run s newSrv serveResult env =
        ⟨some serverAlreadyRunning, s, false, []⟩) := by
  constructor
  · intro h
    exact run_listener_none s newSrv serveResult env h
  · intro l rs h1 h2
    unfold Run
    rw [h1, h2]

/-- Witness for `run_precondition_errors` at a concrete nil-listener state
and a concrete already-running state. -/
theorem run_precondition_errors_witness :
    Run ⟨none, none, []⟩ 1 GoError.errServerClosed ⟨none, none, none⟩ =
      ⟨some listenerNotInitialised, ⟨none, none, []⟩, false, []⟩ ∧
    Run ⟨some 2, some 3, []⟩ 1 GoError.errServerClosed ⟨none, none, none⟩ =
      ⟨some serverAlreadyRunning, ⟨some 2, some 3, []⟩, false, []⟩ :=
  ⟨(run_precondition_errors ⟨none, none, []⟩ 1 GoError.errServerClosed
      ⟨none, none, none⟩).1 rfl,
   (run_precondition_errors ⟨some 2, some 3, []⟩ 1 GoError.errServerClosed
      ⟨none, none, none⟩).2 2 3 rfl rfl⟩

/-- Claim C10: the controller is single-use.  Any `Shutdown` that returns
`nil` leaves the listener field nil, and `Run` on such a state returns the
`listener not initialised` error without serving.  In particular a `Run`
that actually served and whose deferred shutdown's close calls succeed
ends with a nil listener, so a second `Run` on the resulting state fails
the same way: the controller can never serve a second time. -/
theorem controller_single_use (s : ServerState) (env : CloseBehaviour)
    (newSrv newSrv2 : Nat) (serveResult serveResult2 : GoError)
    (env2 : CloseBehaviour) (h : (Shutdown s env).err = none) :
    ((Shutdown s env).state.listener = none ∧
      Run (Shutdown s env).state newSrv serveResult env2 =
        ⟨some listenerNotInitialised, (Shutdown s env).state, false, []⟩) ∧
    (∀ l, s.listener = some l → s.runningServer = none →
      env.srvShutdownErr = none → env.srvCloseErr = none →
      (Run s newSrv serveResult env).state.listener = none ∧
      Run (Run s newSrv serveResult env).state newSrv2 serveResult2 env2 =
        ⟨some listenerNotInitialised, (Run s newSrv serveResult env).state,
          false, []⟩) := by
  have hnil := shutdown_ok_listener_none s env h
  refine ⟨⟨hnil, run_listener_none _ newSrv serveResult env2 hnil⟩, ?_⟩
  intro l h1 h2 h3 h4
  have hrun : Run s newSrv serveResult env =
      ⟨RunServer serveResult,
        (Shutdown { s with runningServer := some newSrv } env).state, true,
        (walkRoutes s.router).2⟩ := by
    unfold Run
    rw [h1, h2]
  have hdef : (Shutdown { s with runningServer := some newSrv } env).state.listener
      = none := by
    simp [Shutdown, h3, h4]
  have hstate : (Run s newSrv serveResult env).state.listener = none := by
    rw [hrun]
    exact hdef
  exact ⟨hstate, run_listener_none _ newSrv2 serveResult2 env2 hstate⟩

/-- Witness for `controller_single_use`: a concrete running controller is
shut down successfully, after which `Run` fails; and a concrete fresh
controller serves once, after which a second `Run` fails. -/
theorem controller_single_use_witness :
    (((Shutdown ⟨some 0, some 1, []⟩ ⟨none, none, none⟩).state.listener =
        none ∧
      Run (Shutdown ⟨some 0, some 1, []⟩ ⟨none, none, none⟩).state 1
          GoError.errServerClosed ⟨none, none, none⟩ =
        ⟨some listenerNotInitialised,
          (Shutdown ⟨some 0, some 1, []⟩ ⟨none, none, none⟩).state, false,
          []⟩) ∧
    (∀ l, (⟨some 0, none, []⟩ : ServerState).listener = some l →
      (⟨some 0, none, []⟩ : ServerState).runningServer = none →
      (⟨none, none, none⟩ : CloseBehaviour).srvShutdownErr = none →
      (⟨none, none, none⟩ : CloseBehaviour).srvCloseErr = none →
      (Run ⟨some 0, none, []⟩ 1 GoError.errServerClosed
        ⟨none, none, none⟩).state.listener = none ∧
      Run (Run ⟨some 0, none, []⟩ 1 GoError.errServerClosed
            ⟨none, none, none⟩).state 2 GoError.errServerClosed
          ⟨none, none, none⟩ =
        ⟨some listenerNotInitialised,
          (Run ⟨some 0, none, []⟩ 1 GoError.errServerClosed
            ⟨none, none, none⟩).state, false, []⟩)) ∧
    (Shutdown ⟨some 0, some 1, []⟩ ⟨none, none, none⟩).err = none :=
  ⟨⟨(controller_single_use ⟨some 0, some 1, []⟩ ⟨none, none, none⟩ 1 2
      GoError.errServerClosed GoError.errServerClosed ⟨none, none, none⟩
      rfl).1,
    (controller_single_use ⟨some 0, none, []⟩ ⟨none, none, none⟩ 1 2
      GoError.errServerClosed GoError.errServerClosed ⟨none, none, none⟩
      rfl).2⟩, rfl⟩

/-- Helper: the invariant holds in every reachable state of the
signal-cancellation system. -/
lemma sigExec_inv (evs : List SigEvent) : SigInv (sigExec evs) := by
  induction evs with
  | nil => exact ⟨rfl, rfl, rfl, fun h => by simp [sigExec, sigInit] at h⟩
  | cons e evs ih =>
    obtain ⟨h1, h2, h3, h4⟩ := ih
    show SigInv (sigStep e (sigExec evs))
    cases e with
    | deliverSignal =>
      simp only [sigStep]
      split
      · exact ⟨h1, h2, h3, h4⟩
      · exact ⟨h1, h2, h3, h4⟩
    | watcherStep =>
      simp only [sigStep]
      split
      · exact ⟨h1, h2, h3, fun _ => rfl⟩
      · exact ⟨h1, h2, h3, h4⟩
    | parentCancel =>
      simp only [sigStep]
      exact ⟨h1, h2, h3, fun _ => rfl⟩
    | releaseBody =>
      simp only [sigStep]
      split
      · exact ⟨h1, h2, h3, h4⟩
      · rename_i hOnce
        simp only [Bool.not_eq_true] at hOnce
        refine ⟨?_, rfl, rfl, h4⟩
        simp [h1, hOnce]

/-- Claim C8: the release function of `WithCancelOnSignal` is idempotent and
terminating.  In every reachable state of the system: the channel has been
closed at most once and never while signal delivery is still registered
(so no double-close and no send-on-closed-channel panic); running the
once-guarded release body a second time changes nothing, and on a state
where the guard has already fired it is the identity; after any release
call the guard has fired exactly once, the channel is closed and signal
interest is un-registered; and the `ctx.Done()` wait every release call
then blocks on is satisfied either already or after one step of the
watcher goroutine — so every call returns, even when no OS signal was ever
delivered. -/
theorem withCancelOnSignal_release_idempotent (evs : List SigEvent) :
    (sigExec evs).chCloseCount ≤ 1 ∧
    ((sigExec evs).notifyRegistered = true → (sigExec evs).chClosed = false) ∧
    sigStep SigEvent.releaseBody (sigStep SigEvent.releaseBody (sigExec evs)) =
      sigStep SigEvent.releaseBody (sigExec evs) ∧
    ((sigExec evs).onceUsed = true →
      sigStep SigEvent.releaseBody (sigExec evs) = sigExec evs) ∧
    (sigStep SigEvent.releaseBody (sigExec evs)).chCloseCount = 1 ∧
    (sigStep SigEvent.releaseBody (sigExec evs)).chClosed = true ∧
    (sigStep SigEvent.releaseBody (sigExec evs)).notifyRegistered = false ∧
    (releaseCallReturned (sigStep SigEvent.releaseBody (sigExec evs)) ∨
      releaseCallReturned
        (sigStep SigEvent.watcherStep
          (sigStep SigEvent.releaseBody (sigExec evs)))) := by
  obtain ⟨h1, h2, h3, h4⟩ := sigExec_inv evs
  set s := sigExec evs with hs
  have hstep : ∀ t : SigState, t.onceUsed = true →
      sigStep SigEvent.releaseBody t = t := by
    intro t ht
    simp [sigStep, ht]
  cases hOnce : s.onceUsed with
  | true =>
    have hid := hstep s hOnce
    have hcount : s.chCloseCount = 1 := by rw [h1, hOnce]; rfl
    have hclosed : s.chClosed = true := by rw [h2, hOnce]
    have hnotify : s.notifyRegistered = false := by rw [h3, hOnce]; rfl
    refine ⟨?_, ?_, ?_, ?_, ?_, ?_, ?_, ?_⟩
    · simp [hcount]
    · intro hn
      rw [hnotify] at hn
      exact absurd hn (by decide)
    · rw [hid]
      exact hid
    · exact fun _ => hid
    · rw [hid]
      exact hcount
    · rw [hid]
      exact hclosed
    · rw [hid]
      exact hnotify
    · rw [hid]
      cases hCan : s.cancelled with
      | true => exact Or.inl hCan
      | false =>
        cases hW : s.watcherDone with
        | true => exact Or.inl (h4 hW)
        | false =>
          right
          show (sigStep SigEvent.watcherStep s).cancelled = true
          simp only [sigStep]
          simp [hW, hclosed]
  | false =>
    have hcount : s.chCloseCount = 0 := by rw [h1, hOnce]; rfl
    have hclosed : s.chClosed = false := by rw [h2, hOnce]
    have hfirst : sigStep SigEvent.releaseBody s =
        { s with notifyRegistered := false, chClosed := true,
                 chCloseCount := s.chCloseCount + 1, onceUsed := true } := by
      simp only [sigStep, hOnce]
      simp
    refine ⟨?_, ?_, ?_, ?_, ?_, ?_, ?_, ?_⟩
    · simp [hcount]
    · exact fun _ => hclosed
    · rw [hfirst]
      exact hstep _ rfl
    · intro h
      simp [hOnce] at h
    · rw [hfirst]
      simp [hcount]
    · rw [hfirst]
    · rw [hfirst]
    · rw [hfirst]
      cases hCan : s.cancelled with
      | true => exact Or.inl rfl
      | false =>
        cases hW : s.watcherDone with
        | true => exact absurd (h4 hW) (by simp [hCan])
        | false =>
          right
          simp [releaseCallReturned, sigStep]

/-- Witness for `withCancelOnSignal_release_idempotent` at the trace in
which the release function is called once, with no OS signal ever
delivered. -/
theorem withCancelOnSignal_release_idempotent_witness :
    (sigExec [SigEvent.releaseBody]).chCloseCount ≤ 1 ∧
    ((sigExec [SigEvent.releaseBody]).notifyRegistered = true →
      (sigExec [SigEvent.releaseBody]).chClosed = false) ∧
    sigStep SigEvent.releaseBody
        (sigStep SigEvent.releaseBody (sigExec [SigEvent.releaseBody])) =
      sigStep SigEvent.releaseBody (sigExec [SigEvent.releaseBody]) ∧
    ((sigExec [SigEvent.releaseBody]).onceUsed = true →
      sigStep SigEvent.releaseBody (sigExec [SigEvent.releaseBody]) =
        sigExec [SigEvent.releaseBody]) ∧
    (sigStep SigEvent.releaseBody (sigExec [SigEvent.releaseBody])).chCloseCount
      = 1 ∧
    (sigStep SigEvent.releaseBody (sigExec [SigEvent.releaseBody])).chClosed
      = true ∧
    (sigStep SigEvent.releaseBody
      (sigExec [SigEvent.releaseBody])).notifyRegistered = false ∧
    (releaseCallReturned
        (sigStep SigEvent.releaseBody (sigExec [SigEvent.releaseBody])) ∨
      releaseCallReturned
        (sigStep SigEvent.watcherStep
          (sigStep SigEvent.releaseBody (sigExec [SigEvent.releaseBody])))) :=
  withCancelOnSignal_release_idempotent [SigEvent.releaseBody]

end MicroServer
